import Mathlib

/-!
Shallow embedding of the authentication/authorization core of the Penlet
backend (FastAPI application): the login flow with brute-force lockout
(`app/api/v1/endpoints/auth.py`), the sliding-window rate limiter
(`app/middleware/rate_limiter.py`), the JWT token codec and password
validator (`app/core/security.py`), and the `get_current_user` dependency
(`app/api/deps.py`).  Time is modelled as `Int` seconds since the epoch;
the Argon2 verifier and the JWT signature are modelled abstractly (the
verifier as an oracle parameter, the signature as the signing secret
attached to the claims).
-/

/-- Configuration values from `app/core/config.py` (class Settings). -/
def maxLoginAttempts : Nat := 5

def lockoutDurationMinutes : Int := 30

def accessTokenExpireMinutes : Int := 30

def minPasswordLength : Nat := 8

def requireUppercase : Bool := true

def requireLowercase : Bool := true

def requireDigit : Bool := true

def requireSpecial : Bool := false

/-- The fields of the `User` model consulted and mutated by the login flow,
`get_current_user` and `reset_password` (`app/models/models.py`). -/
structure User where
  hashedPassword : String
  failedLoginAttempts : Nat
  isLocked : Bool
  lockedUntil : Option Int
  isActive : Bool
  isVerified : Bool
  lastLogin : Option Int
  passwordChangedAt : Option Int
deriving Repr, DecidableEq

/-- Outcome of an endpoint call: an `HTTPException` with its status code and
detail message, or success. -/
inductive LoginResult where
  | failure (statusCode : Nat) (detail : String)
  | success
deriving Repr, DecidableEq

/-- Model of `(locked_until - datetime.utcnow()).seconds // 60` (`auth.py` line 267):
the `seconds` component of a Python `timedelta` is the total length modulo
one day, and `// 60` converts it to minutes. -/
def remainingLockMinutes (lockedUntil now : Int) : Int :=
  ((lockedUntil - now) % 86400) / 60

/-- The part of `login` (`auth.py` lines 274-314) that runs after the lockout
guard: verify the password, drive the failure counter and the lock, then check
the active and verified flags and finish.  The last component of the result
counts the calls made to `verify_password` (0 or 1). -/
def loginVerify (u : User) (password : String) (now : Int)
    (verify : String → String → Bool) : LoginResult × User × Nat :=
  if verify password u.hashedPassword = false then
    let u1 : User := { u with failedLoginAttempts := u.failedLoginAttempts + 1 }
    if u1.failedLoginAttempts ≥ maxLoginAttempts then
      let u2 : User := { u1 with
        isLocked := true
        lockedUntil := some (now + lockoutDurationMinutes * 60) }
      (.failure 423 s!"Account locked. Try again in {lockoutDurationMinutes} minutes.", u2, 1)
    else
      let remainingAttempts : Nat := maxLoginAttempts - u1.failedLoginAttempts
      (.failure 401 s!"Incorrect username or password. {remainingAttempts} attempts remaining.",
        u1, 1)
  else if u.isActive = false then
    (.failure 403 "Account is disabled", u, 1)
  else if u.isVerified = false then
    (.failure 403 "Please verify your email before logging in. Check your inbox for the verification link.",
      u, 1)
  else
    (.success,
      { u with
        failedLoginAttempts := 0
        isLocked := false
        lockedUntil := none
        lastLogin := some now }, 1)

/-- The body of `login` (`auth.py` lines 265-314) once the user record has been
found: the lockout guard (lines 265-272) followed by `loginVerify`. -/
def loginUser (u : User) (password : String) (now : Int)
    (verify : String → String → Bool) : LoginResult × User × Nat :=
  if u.isLocked then
    match u.lockedUntil with
    | some t =>
        if now < t then
          let m := remainingLockMinutes t now
          (.failure 423 s!"Account locked. Try again in {m} minutes.", u, 0)
        else
          loginVerify { u with
            isLocked := false
            lockedUntil := none
            failedLoginAttempts := 0 } password now verify
    | none =>
        loginVerify { u with
          isLocked := false
          lockedUntil := none
          failedLoginAttempts := 0 } password now verify
  else
    loginVerify u password now verify

/-- The whole `login` endpoint (`auth.py` lines 255-314): `found` is the result
of the case-insensitive user lookup. -/
def login (found : Option User) (password : String) (now : Int)
    (verify : String → String → Bool) : LoginResult × Option User × Nat :=
  match found with
  | none => (.failure 401 "Incorrect username or password", none, 0)
  | some u =>
      let r := loginUser u password now verify
      (r.1, some r.2.1, r.2.2)

/-- Iterated failed login attempts (the verifier rejects the password each
time), returning the final user state. -/
def failedLogins (u : User) (password : String) (times : List Int) : User :=
  times.foldl (fun v t => (loginUser v password t (fun _ _ => false)).2.1) u

/-- The user-record mutation of `reset_password` (`auth.py` lines 430-438). -/
def resetPasswordUser (u : User) (newHash : String) (now : Int) : User :=
  { u with
    hashedPassword := newHash
    passwordChangedAt := some now
    failedLoginAttempts := 0
    isLocked := false
    lockedUntil := none }

/-- Pruning step of `InMemoryRateLimiter.is_rate_limited` (`rate_limiter.py`
lines 46-50): keep the timestamps strictly newer than `now - window`. -/
def pruneWindow (reqs : List Int) (window now : Int) : List Int :=
  reqs.filter (fun t => decide (now - window < t))

/-- Model of `min(self.requests[key]) if self.requests[key] else now` (`rate_limiter.py`
line 56). -/
def oldestRequest (reqs : List Int) (now : Int) : Int :=
  match reqs with
  | [] => now
  | t :: ts => ts.foldl min t

/-- Model of `InMemoryRateLimiter.is_rate_limited` (`rate_limiter.py` lines 32-65) for a
single key: given the stored timestamp list, returns
`((is_limited, remaining, reset_time), new stored list)`. -/
def isRateLimited (reqs : List Int) (limit : Nat) (window now : Int) :
    (Bool × Nat × Int) × List Int :=
  let pruned := pruneWindow reqs window now
  if pruned.length ≥ limit then
    ((true, 0, oldestRequest pruned now + window - now), pruned)
  else
    ((false, limit - pruned.length - 1, window), pruned ++ [now])

/-- The limiter acting on the whole `self.requests` table (a `defaultdict` of
lists, modelled as a total function from keys to lists). -/
def checkRateLimit (table : String → List Int) (key : String) (limit : Nat)
    (window now : Int) : (Bool × Nat × Int) × (String → List Int) :=
  let r := isRateLimited (table key) limit window now
  (r.1, Function.update table key r.2)

/-- A sequence of checks for one key at the given times, starting from the
given stored list; returns the list of results and the final stored list. -/
def runChecks (reqs : List Int) (limit : Nat) (window : Int) :
    List Int → List (Bool × Nat × Int) × List Int
  | [] => ([], reqs)
  | t :: ts =>
      let r := isRateLimited reqs limit window t
      let rest := runChecks r.2 limit window ts
      (r.1 :: rest.1, rest.2)

/-- The claims carried by the JWTs built in `security.py`: keys `sub`, `role`,
`exp`, `iat`, `type`, `jti`. -/
structure TokenClaims where
  sub : String
  role : String
  exp : Int
  iat : Int
  type : String
  jti : String
deriving Repr, DecidableEq

/-- A signed token: the claims together with the signature, modelled as the
signing secret (signature verification succeeds exactly for the same
secret). -/
structure SignedToken where
  claims : TokenClaims
  sig : String
deriving Repr, DecidableEq

/-- Model of `jwt.encode(to_encode, settings.SECRET_KEY, algorithm=settings.ALGORITHM)`. -/
def jwtEncode (claims : TokenClaims) (secret : String) : SignedToken :=
  ⟨claims, secret⟩

/-- Model of `jwt.decode(token, settings.SECRET_KEY, algorithms=[settings.ALGORITHM])`:
verifies the signature and the `exp` claim (python-jose raises
`ExpiredSignatureError`, a `JWTError`, when `exp < now`); both failures raise
`JWTError`, which `decode_token` maps to `None`. -/
def jwtDecode (tok : SignedToken) (secret : String) (now : Int) : Option TokenClaims :=
  if tok.sig = secret ∧ now ≤ tok.claims.exp then some tok.claims else none

/-- Model of `create_access_token` (`security.py` lines 84-105) applied to
`data={"sub": sub, "role": role}`; `jti` stands for the random
`secrets.token_urlsafe(16)`. -/
def createAccessToken (sub role : String) (expiresDelta : Option Int)
    (now : Int) (jti secret : String) : SignedToken :=
  let expire := match expiresDelta with
    | some d => now + d
    | none => now + accessTokenExpireMinutes * 60
  jwtEncode { sub := sub, role := role, exp := expire, iat := now,
              type := "access", jti := jti } secret

/-- Model of `decode_token` (`security.py` lines 132-143): returns the payload, or
`None` on any `JWTError` (bad signature and expiry are indistinguishable). -/
def decodeToken (tok : SignedToken) (secret : String) (now : Int) : Option TokenClaims :=
  jwtDecode tok secret now

/-- Model of `verify_password` (`security.py` lines 70-76): the underlying
`pwd_context.verify` is modelled as an oracle that may fail; the wrapper
absorbs the failure into `false`. -/
def verifyPassword (rawVerify : String → String → Except String Bool)
    (plain hashed : String) : Bool :=
  match rawVerify plain hashed with
  | .ok b => b
  | .error _ => false

/-- Python `str.lower()` restricted to the ASCII case mapping. -/
def strLower (s : String) : String :=
  ⟨s.data.map Char.toLower⟩

/-- The regex `(.)\1{2,}`: three or more equal consecutive characters, where
`.` does not match a newline. -/
def hasRepeatedRun : List Char → Bool
  | a :: b :: c :: rest =>
      (a = b && b = c && a ≠ '\n') || hasRepeatedRun (b :: c :: rest)
  | _ => false

/-- The alternatives of the sequential-numbers regex in
`PasswordValidator.validate`. -/
def digitRuns : List String :=
  ["012", "123", "234", "345", "456", "567", "678", "789"]

/-- The alternatives of the sequential-letters regex in
`PasswordValidator.validate`. -/
def letterRuns : List String :=
  ["abc", "bcd", "cde", "def", "efg", "fgh", "ghi", "hij", "ijk", "jkl",
   "klm", "lmn", "mno", "nop", "opq", "pqr", "qrs", "rst", "stu", "tuv",
   "uvw", "vwx", "wxy", "xyz"]

/-- Search for any of the given three-character alternatives as a window of
the character list (regex alternation of length-3 literals). -/
def tripleIn (runs : List String) : List Char → Bool
  | a :: b :: c :: rest =>
      runs.contains (String.mk [a, b, c]) || tripleIn runs (b :: c :: rest)
  | _ => false

/-- The special characters of the regex `[!@#$%^&*(),.?\":{}|<>]`. -/
def specialChars : List Char :=
  ['!', '@', '#', '$', '%', '^', '&', '*', '(', ')', ',', '.', '?', '"',
   ':', '\x7b', '\x7d', '|', '<', '>']

/-- Model of `PasswordValidator.validate` (`security.py` lines 32-67): every rule is
checked independently and appends its message; the weak-pattern loop appends a
single message and breaks at the first matching pattern. -/
def validate (password : String) : Bool × List String :=
  let cs := password.data
  let e1 := if password.length < minPasswordLength then
    [s!"Password must be at least {minPasswordLength} characters"] else []
  let e2 := if requireUppercase && !(cs.any (fun c => decide ('A' ≤ c ∧ c ≤ 'Z'))) then
    ["Password must contain at least one uppercase letter"] else []
  let e3 := if requireLowercase && !(cs.any (fun c => decide ('a' ≤ c ∧ c ≤ 'z'))) then
    ["Password must contain at least one lowercase letter"] else []
  let e4 := if requireDigit && !(cs.any (fun c => decide ('0' ≤ c ∧ c ≤ '9'))) then
    ["Password must contain at least one digit"] else []
  let e5 := if requireSpecial && !(cs.any (fun c => specialChars.contains c)) then
    ["Password must contain at least one special character"] else []
  let lowered := (strLower password).data
  let e6 := if hasRepeatedRun lowered || tripleIn digitRuns lowered
      || tripleIn letterRuns lowered then
    ["Password contains weak patterns"] else []
  let errors := e1 ++ e2 ++ e3 ++ e4 ++ e5 ++ e6
  (errors.isEmpty, errors)

/-- Model of `get_current_user` (`deps.py` lines 44-98): decode the bearer token, check
the token type and subject, look the user up, and enforce the active and lock
flags; on success the (possibly auto-unlocked) user is attached to the request
state and returned. -/
def getCurrentUser (credentials : Option SignedToken) (secret : String)
    (now : Int) (findUser : String → Option User) : Except String User :=
  match credentials with
  | none => .error "Authorization header missing"
  | some tok =>
    match decodeToken tok secret now with
    | none => .error "Invalid or expired token"
    | some payload =>
      if payload.type ≠ "access" then .error "Invalid token type"
      else if payload.sub = "" then .error "Invalid token payload"
      else match findUser payload.sub with
        | none => .error "User not found"
        | some u =>
          if u.isActive = false then .error "User account is disabled"
          else if u.isLocked then
            match u.lockedUntil with
            | some t =>
                if now < t then .error "Account is temporarily locked"
                else .ok { u with
                  isLocked := false
                  lockedUntil := none
                  failedLoginAttempts := 0 }
            | none => .ok { u with
                isLocked := false
                lockedUntil := none
                failedLoginAttempts := 0 }
          else .ok u

/-- C8: `verify_password` never throws: whatever the underlying
`pwd_context.verify` oracle does, the wrapper is a total `Bool` function; the
error branch is absorbed and the function returns `false`, and a successful
underlying verification is passed through. -/
theorem verify_password_absorbs_errors
    (rawVerify : String → String → Except String Bool) (plain hashed : String) :
    (∀ e, rawVerify plain hashed = .error e →
      verifyPassword rawVerify plain hashed = false) ∧
    (∀ b, rawVerify plain hashed = .ok b →
      verifyPassword rawVerify plain hashed = b) := by
  constructor <;> intro x h <;> simp [verifyPassword, h]

/-- Witness for C8 at a concrete failing oracle and a corrupt hash string. -/
theorem verify_password_absorbs_witness :
    verifyPassword (fun _ _ => .error "malformed hash") "hunter2" "$argon2$corrupt" = false :=
  (verify_password_absorbs_errors (fun _ _ => .error "malformed hash")
    "hunter2" "$argon2$corrupt").1 "malformed hash" rfl

/-- C9: when a check comes back `limited = true`, the stored sequence for that
key afterwards is exactly the pruned sequence (nothing appended), and the
sequences of all other keys are unchanged. -/
theorem rate_limited_attempt_not_recorded
    (table : String → List Int) (key : String) (limit : Nat) (window now : Int)
    (hlim : (checkRateLimit table key limit window now).1.1 = true) :
    (checkRateLimit table key limit window now).2 key =
      pruneWindow (table key) window now ∧
    ∀ k, k ≠ key → (checkRateLimit table key limit window now).2 k = table k := by
  by_cases h : (pruneWindow (table key) window now).length ≥ limit
  · refine ⟨?_, fun k hk => ?_⟩
    · simp [checkRateLimit, isRateLimited, h]
    · simp [checkRateLimit, Function.update_noteq hk]
  · simp [checkRateLimit, isRateLimited, h] at hlim

/-- Witness for C9: key "a" holds one fresh timestamp, the limit is 1, so the
check is rejected; the stored list stays `[0]` and key "b" is untouched. -/
theorem rate_limited_attempt_witness :
    ((checkRateLimit (fun k => if k = "a" then [0] else [7]) "a" 1 60 30).1.1 = true) ∧
    (checkRateLimit (fun k => if k = "a" then [0] else [7]) "a" 1 60 30).2 "a" = [0] ∧
    (checkRateLimit (fun k => if k = "a" then [0] else [7]) "a" 1 60 30).2 "b" = [7] := by
  have h := rate_limited_attempt_not_recorded
    (fun k => if k = "a" then [0] else [7]) "a" 1 60 30 rfl
  exact ⟨rfl, h.1, (h.2 "b" (by decide)).trans (by decide)⟩

/-- C3: decoding an access token before its TTL elapses with the issuing
secret yields the issued subject and type "access"; decoding after the TTL, or
with a different secret, both fail, and with the identical result `none` (no
expired-vs-tampered distinction). -/
theorem access_token_roundtrip_uniform_failure
    (u r secret jti : String) (now fresh stale : Int)
    (hfresh : fresh ≤ now + accessTokenExpireMinutes * 60)
    (hstale : now + accessTokenExpireMinutes * 60 < stale) :
    (∃ c, decodeToken (createAccessToken u r none now jti secret) secret fresh = some c ∧
      c.sub = u ∧ c.type = "access") ∧
    decodeToken (createAccessToken u r none now jti secret) secret stale = none ∧
    (∀ secret2 t, secret2 ≠ secret →
      decodeToken (createAccessToken u r none now jti secret) secret2 t = none) ∧
    (∀ secret2 t, secret2 ≠ secret →
      decodeToken (createAccessToken u r none now jti secret) secret2 t =
        decodeToken (createAccessToken u r none now jti secret) secret stale) := by
  refine ⟨⟨⟨u, r, now + accessTokenExpireMinutes * 60, now, "access", jti⟩, ?_, rfl, rfl⟩,
    ?_, fun secret2 t h2 => ?_, fun secret2 t h2 => ?_⟩
  · simp [decodeToken, createAccessToken, jwtEncode, jwtDecode, hfresh]
  · simp [decodeToken, createAccessToken, jwtEncode, jwtDecode]
    omega
  · simp [decodeToken, createAccessToken, jwtEncode, jwtDecode]
    intro hc
    exact absurd hc.symm h2
  · simp only [decodeToken, createAccessToken, jwtEncode, jwtDecode]
    rw [if_neg (fun hc => h2 hc.1.symm), if_neg (by omega)]

/-- Witness for C3 at concrete issue time 1000, decode times 1500 (fresh) and
5000 (stale), and secrets "s" vs "x". -/
theorem access_token_roundtrip_witness :
    (∃ c, decodeToken (createAccessToken "42" "student" none 1000 "j" "s") "s" 1500 = some c ∧
      c.sub = "42" ∧ c.type = "access") ∧
    decodeToken (createAccessToken "42" "student" none 1000 "j" "s") "s" 5000 = none ∧
    decodeToken (createAccessToken "42" "student" none 1000 "j" "s") "x" 1500 = none := by
  have h := access_token_roundtrip_uniform_failure "42" "student" "s" "j" 1000 1500 5000
    (by decide) (by decide)
  exact ⟨h.1, h.2.1, h.2.2.1 "x" 1500 (by decide)⟩

/-- C4: a login attempt on a locked account whose lockout has expired clears
the lock, resets the counter, and proceeds; with a correct password on an
active, verified account it succeeds and leaves `failed_login_attempts = 0`. -/
theorem auto_unlock_success_resets_attempts
    (u : User) (pw : String) (t now : Int) (verify : String → String → Bool)
    (hl : u.isLocked = true) (hu : u.lockedUntil = some t) (hexp : t ≤ now)
    (hv : verify pw u.hashedPassword = true)
    (ha : u.isActive = true) (hver : u.isVerified = true) :
    (loginUser u pw now verify).1 = .success ∧
    (loginUser u pw now verify).2.1.failedLoginAttempts = 0 ∧
    (loginUser u pw now verify).2.1.isLocked = false ∧
    (loginUser u pw now verify).2.1.lockedUntil = none := by
  simp [loginUser, hl, hu, not_lt.mpr hexp, loginVerify, hv, ha, hver]

/-- Witness for C4: a locked account with `locked_until = 50`, a correct
password at time 100. -/
theorem auto_unlock_success_witness :
    (loginUser ⟨"h", 5, true, some 50, true, true, none, none⟩ "pw" 100
        (fun _ _ => true)).1 = .success ∧
    (loginUser ⟨"h", 5, true, some 50, true, true, none, none⟩ "pw" 100
        (fun _ _ => true)).2.1.failedLoginAttempts = 0 := by
  have h := auto_unlock_success_resets_attempts
    ⟨"h", 5, true, some 50, true, true, none, none⟩ "pw" 50 100
    (fun _ _ => true) rfl rfl (by decide) rfl rfl rfl
  exact ⟨h.1, h.2.1⟩

/-- After `maxAttempts` consecutive failed logins from a clean unlocked state,
the account is locked until the last attempt's time plus the lockout
duration. -/
lemma failedLogins_locks (u : User) (wrongPw : String) (t1 t2 t3 t4 t5 : Int)
    (h0 : u.isLocked = false) (h1 : u.failedLoginAttempts = 0) :
    failedLogins u wrongPw [t1, t2, t3, t4, t5] =
      { u with
        failedLoginAttempts := 5
        isLocked := true
        lockedUntil := some (t5 + lockoutDurationMinutes * 60) } := by
  simp [failedLogins, loginUser, loginVerify, h0, h1, maxLoginAttempts]

/-- A login attempt on a locked account with `now < locked_until` is rejected
with status 423 before any password verification. -/
lemma loginUser_locked_rejects (u : User) (pw : String) (t now : Int)
    (verify : String → String → Bool)
    (hl : u.isLocked = true) (hu : u.lockedUntil = some t) (hnow : now < t) :
    loginUser u pw now verify =
      (.failure 423 s!"Account locked. Try again in {remainingLockMinutes t now} minutes.",
        u, 0) := by
  simp [loginUser, hl, hu, hnow]

/-- C1: after `MAX_LOGIN_ATTEMPTS = 5` consecutive failed logins the account is
locked until the fifth attempt's time plus the lockout duration, and any
subsequent login attempt while `now < locked_until` — with any password and
any verifier, in particular one accepting the correct password — fails with
the 423 `AccountLocked` rejection and performs zero password-verification
calls. -/
theorem lockout_rejects_correct_password_before_verify
    (u : User) (wrongPw pw : String) (t1 t2 t3 t4 t5 now : Int)
    (verify : String → String → Bool)
    (h0 : u.isLocked = false) (h1 : u.failedLoginAttempts = 0)
    (hnow : now < t5 + lockoutDurationMinutes * 60) :
    (failedLogins u wrongPw [t1, t2, t3, t4, t5]).isLocked = true ∧
    (failedLogins u wrongPw [t1, t2, t3, t4, t5]).lockedUntil =
      some (t5 + lockoutDurationMinutes * 60) ∧
    (loginUser (failedLogins u wrongPw [t1, t2, t3, t4, t5]) pw now verify).1 =
      .failure 423
        s!"Account locked. Try again in {remainingLockMinutes (t5 + lockoutDurationMinutes * 60) now} minutes." ∧
    (loginUser (failedLogins u wrongPw [t1, t2, t3, t4, t5]) pw now verify).2.2 = 0 := by
  rw [failedLogins_locks u wrongPw t1 t2 t3 t4 t5 h0 h1]
  rw [loginUser_locked_rejects _ pw (t5 + lockoutDurationMinutes * 60) now verify
    rfl rfl hnow]
  exact ⟨rfl, rfl, rfl, rfl⟩

/-- Witness for C1: five failed attempts at times 1..5 lock the account until
1805; a correct-password attempt at time 100 is rejected with zero verifier
calls. -/
theorem lockout_rejects_witness :
    (failedLogins ⟨"h", 0, false, none, true, true, none, none⟩ "bad"
      [1, 2, 3, 4, 5]).isLocked = true ∧
    (failedLogins ⟨"h", 0, false, none, true, true, none, none⟩ "bad"
      [1, 2, 3, 4, 5]).lockedUntil = some 1805 ∧
    (loginUser (failedLogins ⟨"h", 0, false, none, true, true, none, none⟩ "bad"
      [1, 2, 3, 4, 5]) "correct" 100 (fun _ _ => true)).1 =
      .failure 423 "Account locked. Try again in 28 minutes." ∧
    (loginUser (failedLogins ⟨"h", 0, false, none, true, true, none, none⟩ "bad"
      [1, 2, 3, 4, 5]) "correct" 100 (fun _ _ => true)).2.2 = 0 := by
  have h := lockout_rejects_correct_password_before_verify
    ⟨"h", 0, false, none, true, true, none, none⟩ "bad" "correct" 1 2 3 4 5 100
    (fun _ _ => true) rfl rfl (by decide)
  exact ⟨h.1, h.2.1, h.2.2.1, h.2.2.2⟩

/-- C5 counterexample: the absent-identity failure says "Incorrect username or
password" while the wrong-password failure says "Incorrect username or
password. 4 attempts remaining." — the two messages are not identical, so the
wrong-password response reveals that the identity exists. -/
theorem login_message_enumeration_counterexample :
    (login none "pw" 0 (fun _ _ => false)).1 =
      .failure 401 "Incorrect username or password" ∧
    (login (some ⟨"h", 0, false, none, true, true, none, none⟩) "pw" 0
        (fun _ _ => false)).1 =
      .failure 401 "Incorrect username or password. 4 attempts remaining." ∧
    "Incorrect username or password. 4 attempts remaining." ≠
      "Incorrect username or password" := by
  refine ⟨rfl, by decide, by decide⟩

/-- The interpolated wrong-password message decomposed into its three
pieces. -/
lemma wrongPasswordMsg_eq (n : Nat) :
    (s!"Incorrect username or password. {n} attempts remaining." : String) =
      "Incorrect username or password. " ++ toString n ++ " attempts remaining." := rfl

/-- C5 (amended): both failures carry the same 401 status and share the
generic prefix "Incorrect username or password", but the wrong-password
message appends the remaining-attempt count, so the two messages are not
identical. -/
theorem login_failure_generic_message_shared
    (pw : String) (now : Int) (verify : String → String → Bool) (u : User)
    (hl : u.isLocked = false) (hv : verify pw u.hashedPassword = false)
    (hlt : u.failedLoginAttempts + 1 < maxLoginAttempts) :
    (login none pw now verify).1 =
      .failure 401 "Incorrect username or password" ∧
    (loginUser u pw now verify).1 =
      .failure 401
        s!"Incorrect username or password. {maxLoginAttempts - (u.failedLoginAttempts + 1)} attempts remaining." ∧
    (∃ rest, rest ≠ [] ∧
      "Incorrect username or password".data ++ rest =
        (s!"Incorrect username or password. {maxLoginAttempts - (u.failedLoginAttempts + 1)} attempts remaining.").data) := by
  have hif : ¬ (u.failedLoginAttempts + 1 ≥ maxLoginAttempts) := by omega
  refine ⟨rfl, ?_, ?_⟩
  · simp [loginUser, loginVerify, hl, hv, hif]
  · refine ⟨". ".data ++ (toString (maxLoginAttempts - (u.failedLoginAttempts + 1))).data
      ++ " attempts remaining.".data, by simp, ?_⟩
    rw [wrongPasswordMsg_eq]
    show _ = (("Incorrect username or password. " ++ _) ++ _).data
    rw [String.data_append, String.data_append]
    show "Incorrect username or password".data ++ _ = _
    simp

/-- Witness for the amended C5 at a concrete user with no prior failures. -/
theorem login_failure_generic_witness :
    (login none "pw" 0 (fun _ _ => false)).1 =
      .failure 401 "Incorrect username or password" ∧
    (loginUser ⟨"h", 0, false, none, true, true, none, none⟩ "pw" 0
        (fun _ _ => false)).1 =
      .failure 401 "Incorrect username or password. 4 attempts remaining." ∧
    (∃ rest, rest ≠ [] ∧
      "Incorrect username or password".data ++ rest =
        "Incorrect username or password. 4 attempts remaining.".data) := by
  have h := login_failure_generic_message_shared "pw" 0 (fun _ _ => false)
    ⟨"h", 0, false, none, true, true, none, none⟩ rfl rfl (by decide)
  exact ⟨h.1, h.2.1, h.2.2⟩

/-- C6 counterexample: `get_current_user` accepts a valid access token for an
active, unlocked user whose email is NOT verified, and attaches that user —
the verified flag is not enforced at this dependency. -/
theorem current_user_unverified_accepted :
    getCurrentUser (some ⟨⟨"42", "student", 100, 0, "access", "j"⟩, "s"⟩) "s" 0
        (fun sid => if sid = "42"
          then some ⟨"h", 0, false, none, true, false, none, none⟩ else none) =
      .ok ⟨"h", 0, false, none, true, false, none, none⟩ ∧
    (⟨"h", 0, false, none, true, false, none, none⟩ : User).isVerified = false :=
  ⟨rfl, rfl⟩

/-- C6 (amended): given a bearer token that decodes to an "access" payload
whose subject resolves to a user, `get_current_user` enforces the active flag
and the lock flag (rejecting while `now < locked_until`), and on success
attaches the resolved user; the verified flag is not checked here (it is
enforced by the separate `get_current_verified_user` dependency). -/
theorem current_user_enforces_active_and_lock
    (tok : SignedToken) (secret : String) (now : Int)
    (findUser : String → Option User) (p : TokenClaims) (u : User)
    (hdec : decodeToken tok secret now = some p)
    (htype : p.type = "access") (hsub : p.sub ≠ "")
    (hfind : findUser p.sub = some u) :
    (u.isActive = false →
      getCurrentUser (some tok) secret now findUser =
        .error "User account is disabled") ∧
    (∀ t, u.isActive = true → u.isLocked = true → u.lockedUntil = some t →
      now < t →
      getCurrentUser (some tok) secret now findUser =
        .error "Account is temporarily locked") ∧
    (u.isActive = true → u.isLocked = false →
      getCurrentUser (some tok) secret now findUser = .ok u) := by
  refine ⟨fun ha => ?_, fun t ha hl hu hnow => ?_, fun ha hl => ?_⟩
  · simp [getCurrentUser, hdec, htype, hsub, hfind, ha]
  · simp [getCurrentUser, hdec, htype, hsub, hfind, ha, hl, hu, hnow]
  · simp [getCurrentUser, hdec, htype, hsub, hfind, ha, hl]

/-- Witness for the amended C6: a disabled user is rejected, a locked user is
rejected, an active unlocked user is attached. -/
theorem current_user_enforces_witness :
    getCurrentUser (some ⟨⟨"42", "s0", 100, 0, "access", "j"⟩, "k"⟩) "k" 0
        (fun _ => some ⟨"h", 0, false, none, false, true, none, none⟩) =
      .error "User account is disabled" ∧
    getCurrentUser (some ⟨⟨"42", "s0", 100, 0, "access", "j"⟩, "k"⟩) "k" 0
        (fun _ => some ⟨"h", 3, true, some 50, true, true, none, none⟩) =
      .error "Account is temporarily locked" ∧
    getCurrentUser (some ⟨⟨"42", "s0", 100, 0, "access", "j"⟩, "k"⟩) "k" 0
        (fun _ => some ⟨"h", 0, false, none, true, true, none, none⟩) =
      .ok ⟨"h", 0, false, none, true, true, none, none⟩ := by
  refine ⟨?_, ?_, ?_⟩
  · exact (current_user_enforces_active_and_lock
      ⟨⟨"42", "s0", 100, 0, "access", "j"⟩, "k"⟩ "k" 0
      (fun _ => some ⟨"h", 0, false, none, false, true, none, none⟩)
      ⟨"42", "s0", 100, 0, "access", "j"⟩
      ⟨"h", 0, false, none, false, true, none, none⟩
      rfl rfl (by decide) rfl).1 rfl
  · exact (current_user_enforces_active_and_lock
      ⟨⟨"42", "s0", 100, 0, "access", "j"⟩, "k"⟩ "k" 0
      (fun _ => some ⟨"h", 3, true, some 50, true, true, none, none⟩)
      ⟨"42", "s0", 100, 0, "access", "j"⟩
      ⟨"h", 3, true, some 50, true, true, none, none⟩
      rfl rfl (by decide) rfl).2.1 50 rfl rfl rfl (by decide)
  · exact (current_user_enforces_active_and_lock
      ⟨⟨"42", "s0", 100, 0, "access", "j"⟩, "k"⟩ "k" 0
      (fun _ => some ⟨"h", 0, false, none, true, true, none, none⟩)
      ⟨"42", "s0", 100, 0, "access", "j"⟩
      ⟨"h", 0, false, none, true, true, none, none⟩
      rfl rfl (by decide) rfl).2.2 rfl rfl

/-- C10 counterexample: starting from a record with
`failed_login_attempts = 5 = MAX_LOGIN_ATTEMPTS` (within the claimed bound)
that is not locked, one more failed attempt drives the counter to 6, which
exceeds `MAX_LOGIN_ATTEMPTS`: the claimed bound alone is not inductive. -/
theorem failed_attempts_exceeds_max_counterexample :
    (⟨"h", 5, false, none, true, true, none, none⟩ : User).failedLoginAttempts ≤
      maxLoginAttempts ∧
    (loginUser ⟨"h", 5, false, none, true, true, none, none⟩ "pw" 0
      (fun _ _ => false)).2.1.failedLoginAttempts = 6 ∧
    ¬ (6 ≤ maxLoginAttempts) :=
  ⟨by decide, by decide, by decide⟩

/-- The strengthened inductive invariant on the failure counter: it never
exceeds the maximum, and while the account is unlocked it stays strictly
below the maximum. -/
def lockInv (u : User) : Prop :=
  u.failedLoginAttempts ≤ maxLoginAttempts ∧
  (u.isLocked = false → u.failedLoginAttempts < maxLoginAttempts)

/-- C10 (amended): the strengthened invariant `lockInv` — counter at most
`MAX_LOGIN_ATTEMPTS`, strictly below it while unlocked — is preserved by every
login attempt and re-established by password reset; the counter grows by at
most one per attempt, a locked rejection (`now < locked_until`) leaves the
record untouched, and a successful login and a password reset set the counter
to 0. -/
theorem failed_attempts_bounded_invariant
    (u : User) (pw newHash : String) (now : Int)
    (verify : String → String → Bool) (hinv : lockInv u) :
    lockInv (loginUser u pw now verify).2.1 ∧
    (loginUser u pw now verify).2.1.failedLoginAttempts ≤
      u.failedLoginAttempts + 1 ∧
    (∀ t, u.isLocked = true → u.lockedUntil = some t → now < t →
      (loginUser u pw now verify).2.1 = u) ∧
    ((loginUser u pw now verify).1 = .success →
      (loginUser u pw now verify).2.1.failedLoginAttempts = 0) ∧
    lockInv (resetPasswordUser u newHash now) ∧
    (resetPasswordUser u newHash now).failedLoginAttempts = 0 := by
  obtain ⟨hle, hlt⟩ := hinv
  refine ⟨?_, ?_, fun t hl hu hnow => ?_, fun hs => ?_, ?_, rfl⟩
  · cases hl : u.isLocked <;> rcases hu : u.lockedUntil with _ | t' <;>
      simp [loginUser, loginVerify, lockInv, maxLoginAttempts, hl, hu] <;>
      split_ifs <;> simp_all [maxLoginAttempts] <;> omega
  · cases hl : u.isLocked <;> rcases hu : u.lockedUntil with _ | t' <;>
      simp [loginUser, loginVerify, hl, hu] <;>
      split_ifs <;> simp_all
  · simp [loginUser, hl, hu, hnow]
  · cases hl : u.isLocked <;> rcases hu : u.lockedUntil with _ | t' <;>
      simp [loginUser, loginVerify, hl, hu] at hs ⊢ <;>
      split_ifs at hs ⊢ <;> simp_all
  · simp [lockInv, resetPasswordUser, maxLoginAttempts]

/-- Witness for the amended C10 at a concrete user one step below the
threshold and a failing verifier. -/
theorem failed_attempts_bounded_witness :
    lockInv (loginUser ⟨"h", 4, false, none, true, true, none, none⟩ "pw" 0
      (fun _ _ => false)).2.1 ∧
    (loginUser ⟨"h", 4, false, none, true, true, none, none⟩ "pw" 0
      (fun _ _ => false)).2.1.failedLoginAttempts ≤ 5 ∧
    lockInv (resetPasswordUser ⟨"h", 4, false, none, true, true, none, none⟩
      "h2" 9) := by
  have h := failed_attempts_bounded_invariant
    ⟨"h", 4, false, none, true, true, none, none⟩ "pw" "h2" 0
    (fun _ _ => false) ⟨by decide, fun _ => by decide⟩
  exact ⟨h.1, h.2.1, h.2.2.2.2.1⟩

/-- Pruning removes nothing when every stored timestamp is within the
window. -/
lemma pruneWindow_eq_self (reqs : List Int) (window now : Int)
    (h : ∀ s ∈ reqs, now - s < window) : pruneWindow reqs window now = reqs := by
  unfold pruneWindow
  refine List.filter_eq_self.mpr (fun a ha => ?_)
  have := h a ha
  simp
  omega

/-- A check below the limit appends the current time and reports
`remaining = limit - count - 1` and `reset = window`. -/
lemma isRateLimited_admits (reqs : List Int) (limit : Nat) (window now : Int)
    (h : ∀ s ∈ reqs, now - s < window) (hlt : reqs.length < limit) :
    isRateLimited reqs limit window now =
      ((false, limit - reqs.length - 1, window), reqs ++ [now]) := by
  unfold isRateLimited
  rw [pruneWindow_eq_self reqs window now h, if_neg (by omega)]

/-- A check at the limit rejects, records nothing, and computes the reset from
the oldest surviving timestamp. -/
lemma isRateLimited_rejects (reqs : List Int) (limit : Nat) (window now : Int)
    (h : ∀ s ∈ reqs, now - s < window) (hge : reqs.length ≥ limit) :
    isRateLimited reqs limit window now =
      ((true, 0, oldestRequest reqs now + window - now), reqs) := by
  unfold isRateLimited
  rw [pruneWindow_eq_self reqs window now h, if_pos (by omega)]

/-- Folding `min` over elements all at least the seed returns the seed. -/
lemma foldl_min_eq_seed (t0 : Int) (rest : List Int)
    (h : ∀ s ∈ rest, t0 ≤ s) : rest.foldl min t0 = t0 := by
  induction rest with
  | nil => rfl
  | cons a l ih =>
      rw [List.foldl_cons, min_eq_left (h a (by simp))]
      exact ih (fun s hs => h s (by simp [hs]))

/-- On a sorted nonempty list the oldest request is the head. -/
lemma oldestRequest_sorted (t0 : Int) (rest : List Int) (now : Int)
    (hchain : List.Chain' (· ≤ ·) (t0 :: rest)) :
    oldestRequest (t0 :: rest) now = t0 := by
  have hpw := (List.chain'_iff_pairwise.mp hchain)
  exact foldl_min_eq_seed t0 rest (fun s hs => (List.pairwise_cons.mp hpw).1 s hs)

/-- Every check in the sequence is admitted while the total count stays within
the limit: the i-th check (counting the already-stored entries) returns
`(false, limit - count - 1, window)` and the final stored list is the full
time sequence. -/
lemma runChecks_all_admitted (limit : Nat) (window : Int) :
    ∀ (todo done : List Int),
      (∀ a ∈ todo, ∀ b ∈ done ++ todo, a - b < window) →
      done.length + todo.length = limit →
      runChecks done limit window todo =
        ((List.range todo.length).map
          (fun i => (false, limit - (done.length + i) - 1, window)), done ++ todo) := by
  intro todo
  induction todo with
  | nil => intro done _ _; simp [runChecks]
  | cons t ts ih =>
      intro done h hlen
      have hstep : isRateLimited done limit window t =
          ((false, limit - done.length - 1, window), done ++ [t]) := by
        refine isRateLimited_admits done limit window t
          (fun b hb => h t (by simp) b (List.mem_append_left _ hb)) (by simp at hlen; omega)
      have hrec := ih (done ++ [t])
        (fun a ha b hb => h a (by simp [ha]) b (by
          simp only [List.append_assoc] at hb
          simpa using hb))
        (by simp at hlen ⊢; omega)
      simp only [runChecks, hstep, hrec]
      refine congrArg₂ Prod.mk ?_ (by simp)
      simp only [List.length_cons]
      rw [List.range_succ_eq_map, List.map_cons, List.map_map]
      refine congrArg₂ List.cons (by simp) ?_
      refine List.map_congr_left (fun i _ => ?_)
      simp only [Function.comp_apply, List.length_append, List.length_singleton,
        Prod.mk.injEq]
      exact ⟨trivial, by omega, trivial⟩

/-- C2: starting from an empty window, the `limit` checks at sorted times
within one window are all admitted with `remaining = limit - count - 1` and
`reset = window`; the next check inside the window is rejected with
`remaining = 0` and `reset = oldest + window - now`, and nothing is recorded;
a check issued more than `window` seconds after the first request is admitted
again. -/
theorem sliding_window_limit_behavior
    (limit : Nat) (window : Int) (t0 : Int) (rest : List Int) (now : Int)
    (hlen : (t0 :: rest).length = limit)
    (hchain : List.Chain' (· ≤ ·) (t0 :: rest))
    (hspan : ∀ a ∈ t0 :: rest, ∀ b ∈ t0 :: rest, a - b < window)
    (hsurv : ∀ s ∈ t0 :: rest, now - s < window) :
    runChecks [] limit window (t0 :: rest) =
      ((List.range limit).map (fun i => (false, limit - i - 1, window)),
        t0 :: rest) ∧
    isRateLimited (t0 :: rest) limit window now =
      ((true, 0, t0 + window - now), t0 :: rest) ∧
    (∀ later, t0 + window < later →
      (isRateLimited (t0 :: rest) limit window later).1.1 = false) := by
  refine ⟨?_, ?_, fun later hlater => ?_⟩
  · have h := runChecks_all_admitted limit window (t0 :: rest) []
      (fun a ha b hb => hspan a ha b (by simpa using hb)) (by simpa using hlen)
    rw [h, hlen]
    simp
  · rw [isRateLimited_rejects (t0 :: rest) limit window now hsurv (by omega)]
    rw [oldestRequest_sorted t0 rest now hchain]
  · unfold isRateLimited
    have hprune : pruneWindow (t0 :: rest) window later =
        pruneWindow rest window later := by
      unfold pruneWindow
      rw [List.filter_cons_of_neg]
      simp
      omega
    rw [hprune]
    have hlenle : (pruneWindow rest window later).length < limit := by
      have := List.length_filter_le (fun t => decide (later - window < t)) rest
      simp only [pruneWindow]
      simp at hlen
      omega
    rw [if_neg (by omega)]

/-- Witness for C2: limit 3, window 60, requests at times 0, 1, 2; the fourth
check at time 3 is rejected with reset 57; a check at time 61 is admitted. -/
theorem sliding_window_limit_witness :
    runChecks [] 3 60 [0, 1, 2] =
      ([(false, 2, 60), (false, 1, 60), (false, 0, 60)], [0, 1, 2]) ∧
    isRateLimited [0, 1, 2] 3 60 3 = ((true, 0, 57), [0, 1, 2]) ∧
    (isRateLimited [0, 1, 2] 3 60 61).1.1 = false := by
  have h := sliding_window_limit_behavior 3 60 0 [1, 2] 3
    (by decide) (by norm_num [List.chain'_cons]) (by decide) (by decide)
  refine ⟨?_, ?_, h.2.2 61 (by decide)⟩
  · rw [h.1]; rfl
  · rw [h.2.1]; decide

/-- Lowercasing never produces a newline. -/
lemma toLower_ne_newline (a : Char) (h : a ≠ '\n') : a.toLower ≠ '\n' := by
  unfold Char.toLower
  show (if a.toNat ≥ 65 ∧ a.toNat ≤ 90 then Char.ofNat (a.toNat + 32) else a) ≠ '\n'
  by_cases hcond : a.toNat ≥ 65 ∧ a.toNat ≤ 90
  · rw [if_pos hcond]
    obtain ⟨h1, h2⟩ := hcond
    generalize a.toNat = n at h1 h2
    interval_cases n <;> decide
  · rw [if_neg hcond]
    exact h

/-- A repeated-run match survives prepending a character. -/
lemma hasRepeatedRun_cons (a : Char) (l : List Char)
    (h : hasRepeatedRun l = true) : hasRepeatedRun (a :: l) = true := by
  cases l with
  | nil => simp [hasRepeatedRun] at h
  | cons b l2 =>
    cases l2 with
    | nil => simp [hasRepeatedRun] at h
    | cons c l3 => simp [hasRepeatedRun, h]

/-- Any window of three equal non-newline characters makes the repeated-run
regex match. -/
lemma hasRepeatedRun_window (a : Char) (pre post : List Char) (ha : a ≠ '\n') :
    hasRepeatedRun (pre ++ a :: a :: a :: post) = true := by
  induction pre with
  | nil => simp [hasRepeatedRun, ha]
  | cons x xs ih =>
      rw [List.cons_append]
      exact hasRepeatedRun_cons x _ ih

/-- A sequential-run match survives prepending a character. -/
lemma tripleIn_cons (runs : List String) (a : Char) (l : List Char)
    (h : tripleIn runs l = true) : tripleIn runs (a :: l) = true := by
  cases l with
  | nil => simp [tripleIn] at h
  | cons b l2 =>
    cases l2 with
    | nil => simp [tripleIn] at h
    | cons c l3 => simp [tripleIn, h]

/-- Any window equal to one of the alternatives makes the alternation
match. -/
lemma tripleIn_window (runs : List String) (x y z : Char) (pre post : List Char)
    (hmem : String.mk [x, y, z] ∈ runs) :
    tripleIn runs (pre ++ x :: y :: z :: post) = true := by
  induction pre with
  | nil => simp [tripleIn, hmem]
  | cons a as ih =>
      rw [List.cons_append]
      exact tripleIn_cons runs a _ ih

/-- C7 counterexample: the password "Aa1b2c3d\n\n\n" contains three identical
consecutive characters (a newline run), yet `PasswordValidator.validate`
accepts it with no violations — `(.)\1{2,}` cannot match a newline. -/
theorem validator_accepts_newline_triple :
    (validate "Aa1b2c3d\n\n\n").1 = true ∧
    (validate "Aa1b2c3d\n\n\n").2 = [] ∧
    "Aa1b2c3d\n\n\n".data.drop 8 = ['\n', '\n', '\n'] := by
  refine ⟨by decide, by decide, by decide⟩

/-- C7 (amended): every rule of `validate` contributes its violation message
independently of the others, the accept flag is exactly "no violations", and
the validator rejects any password containing three identical consecutive
non-newline characters (case-insensitively, matching on the lowercased text)
and any password whose lowercased text contains one of the forward monotonic
digit or letter runs. -/
theorem validator_reports_all_violations (p : String) :
    ((validate p).1 = true ↔ (validate p).2 = []) ∧
    (p.length < minPasswordLength →
      s!"Password must be at least {minPasswordLength} characters" ∈ (validate p).2) ∧
    ((¬ ∃ c ∈ p.data, 'A' ≤ c ∧ c ≤ 'Z') →
      "Password must contain at least one uppercase letter" ∈ (validate p).2) ∧
    ((¬ ∃ c ∈ p.data, 'a' ≤ c ∧ c ≤ 'z') →
      "Password must contain at least one lowercase letter" ∈ (validate p).2) ∧
    ((¬ ∃ c ∈ p.data, '0' ≤ c ∧ c ≤ '9') →
      "Password must contain at least one digit" ∈ (validate p).2) ∧
    (∀ a : Char, a ≠ '\n' → ∀ pre post, p.data = pre ++ a :: a :: a :: post →
      (validate p).1 = false ∧
      "Password contains weak patterns" ∈ (validate p).2) ∧
    (∀ x y z : Char,
      (String.mk [x, y, z] ∈ digitRuns ∨ String.mk [x, y, z] ∈ letterRuns) →
      ∀ pre post, (strLower p).data = pre ++ x :: y :: z :: post →
      (validate p).1 = false ∧
      "Password contains weak patterns" ∈ (validate p).2) := by
  refine ⟨?_, fun h => ?_, fun h => ?_, fun h => ?_, fun h => ?_,
    fun a ha pre post hsplit => ?_, fun x y z hmem pre post hsplit => ?_⟩
  · simp [validate, List.isEmpty_iff]
  · simp [validate, h]
  · simp [validate]
    exact Or.inr ⟨rfl, fun x hx hax => lt_of_not_le (fun hxz => h ⟨x, hx, hax, hxz⟩)⟩
  · simp [validate]
    exact Or.inr ⟨rfl, fun x hx hax => lt_of_not_le (fun hxz => h ⟨x, hx, hax, hxz⟩)⟩
  · simp [validate]
    exact Or.inr ⟨rfl, fun x hx hax => lt_of_not_le (fun hxz => h ⟨x, hx, hax, hxz⟩)⟩
  · have hlow : (strLower p).data =
        pre.map Char.toLower ++ a.toLower :: a.toLower :: a.toLower ::
          post.map Char.toLower := by
      simp [strLower, hsplit]
    have hrun : hasRepeatedRun (strLower p).data = true := by
      rw [hlow]
      exact hasRepeatedRun_window a.toLower _ _ (toLower_ne_newline a ha)
    have hmem2 : "Password contains weak patterns" ∈ (validate p).2 := by
      simp [validate, hrun]
    refine ⟨?_, hmem2⟩
    rw [show (validate p).1 = (validate p).2.isEmpty from rfl]
    simpa [List.isEmpty_iff] using List.ne_nil_of_mem hmem2
  · have hrun : tripleIn digitRuns (strLower p).data = true ∨
        tripleIn letterRuns (strLower p).data = true := by
      rcases hmem with hd | hl
      · exact Or.inl (hsplit ▸ tripleIn_window digitRuns x y z pre post hd)
      · exact Or.inr (hsplit ▸ tripleIn_window letterRuns x y z pre post hl)
    have hmem2 : "Password contains weak patterns" ∈ (validate p).2 := by
      rcases hrun with hr | hr <;> simp [validate, hr]
    refine ⟨?_, hmem2⟩
    rw [show (validate p).1 = (validate p).2.isEmpty from rfl]
    simpa [List.isEmpty_iff] using List.ne_nil_of_mem hmem2

/-- Witness for the amended C7 at the password "abc": too short, no uppercase,
no digit, and a forward letter run. -/
theorem validator_reports_witness :
    "Password must be at least 8 characters" ∈ (validate "abc").2 ∧
    "Password must contain at least one uppercase letter" ∈ (validate "abc").2 ∧
    "Password must contain at least one digit" ∈ (validate "abc").2 ∧
    (validate "abc").1 = false ∧
    "Password contains weak patterns" ∈ (validate "abc").2 := by
  have h := validator_reports_all_violations "abc"
  have hweak := h.2.2.2.2.2.2 'a' 'b' 'c' (Or.inr (by decide)) [] [] (by decide)
  exact ⟨h.2.1 (by decide), h.2.2.1 (by decide), h.2.2.2.2.1 (by decide),
    hweak.1, hweak.2⟩
